import Mathlib

/-!
Verification of the layered error-classification and response-mapping
pipeline of the fastify-api repository, shallowly embedded in Lean 4.

The embedding follows src/middleware/error-handler.ts (the five handler
classes, the registry, and createErrorHandler), src/errors/base.ts,
src/errors/user-errors.ts, src/errors/post-errors.ts,
src/errors/database-errors.ts, src/errors/index.ts (getLogLevel), and the
request-id wiring (genReqId, createRequestContextHook).

JavaScript value conventions used throughout:
  - an object property that may be absent is an Option;
  - the nullish operator a ?? b is Option.getD;
  - the truthiness operator s || d on strings treats the empty string as
    falsy;
  - object-literal contexts are association lists of named values.
-/

namespace FastifyApi

/-- A raw Zod issue as consumed by ZodErrorHandler.handle:
issue.path (joined with a dot), issue.message, issue.received. -/
structure ValidationIssue where
  path : List String
  message : String
  received : Option String
  deriving Repr, DecidableEq

/-- The mapped entry produced by ZodErrorHandler.handle for one issue:
field = issue.path.join(.), plus message and received. -/
structure ValidationField where
  field : String
  message : String
  received : Option String
  deriving Repr, DecidableEq

/-- A diagnostic-context value: contexts in the source hold numbers,
strings, possibly-undefined strings, string lists (query params) and the
mapped validation-issue list. -/
inductive CtxVal where
  | num (n : Int)
  | str (s : String)
  | optStr (s : Option String)
  | strList (l : List String)
  | issues (l : List ValidationField)
  deriving Repr, DecidableEq

/-- Record String to unknown object, as an association list in insertion
order (object spread appends, a later binding overriding an earlier one). -/
abbrev ErrorContext := List (String × CtxVal)

/-- AppError from src/errors/base.ts: extends Error with own statusCode,
code and context properties. -/
structure AppError where
  message : String
  statusCode : Int
  code : String
  context : ErrorContext
  stack : Option String
  deriving Repr, DecidableEq

/-- A raw failure value reaching the error handler, one variant per
instanceof family distinguished by the classifier chain:
ZodError, DrizzleQueryError, DrizzleError, AppError, and a plain Error
possibly carrying stray statusCode or code attributes. -/
inductive RawError where
  | zodError (issues : List ValidationIssue) (message : String) (stack : Option String)
  | drizzleQueryError (query : String) (params : List String)
      (causeMessage : Option String) (message : String) (stack : Option String)
  | drizzleError (message : String) (stack : Option String)
  | appError (e : AppError)
  | plainError (statusCode : Option Int) (code : Option String)
      (message : String) (stack : Option String)
  deriving Repr, DecidableEq

/-- err.message for every variant. -/
def rawMessage : RawError → String
  | .zodError _ m _ => m
  | .drizzleQueryError _ _ _ m _ => m
  | .drizzleError m _ => m
  | .appError a => a.message
  | .plainError _ _ m _ => m

/-- err.stack for every variant. -/
def rawStack : RawError → Option String
  | .zodError _ _ s => s
  | .drizzleQueryError _ _ _ _ s => s
  | .drizzleError _ s => s
  | .appError a => a.stack
  | .plainError _ _ _ s => s

/-- The own statusCode property of the raw error, when one exists:
AppError instances carry one, plain errors may. -/
def ownStatusCode : RawError → Option Int
  | .appError a => some a.statusCode
  | .plainError sc _ _ _ => sc
  | _ => none

/-- The own code property of the raw error, when one exists. -/
def ownCode : RawError → Option String
  | .appError a => some a.code
  | .plainError _ c _ _ => c
  | _ => none

/-- JavaScript string truthiness for s || d: the empty string is falsy. -/
def jsStrOr (s : Option String) (d : String) : String :=
  match s with
  | some v => if v = "" then d else v
  | none => d

/-- The normalized record built by a handler (interface ErrorInfo). -/
structure ErrorInfo where
  statusCode : Int
  code : String
  message : String
  stack : Option String
  context : ErrorContext
  deriving Repr, DecidableEq

/-- The outward JSON envelope (interface ErrorResponse); context is
optional because DrizzleErrorHandler.buildResponse omits it. -/
structure ErrorResponse where
  error : String
  code : String
  context : Option ErrorContext
  deriving Repr, DecidableEq

/-- The ErrorHandler interface: canHandle, handle, buildResponse. -/
structure ErrorHandler where
  canHandle : RawError → Bool
  handle : RawError → ErrorInfo
  buildResponse : ErrorInfo → ErrorResponse

/-- GenericErrorHandler: catch-all, 500 INTERNAL_SERVER_ERROR, keeps the
raw message and stack in the normalized record, empty context. -/
def genericErrorHandler : ErrorHandler where
  canHandle _ := true
  handle err :=
    { statusCode := 500
      code := "INTERNAL_SERVER_ERROR"
      message := rawMessage err
      stack := rawStack err
      context := [] }
  buildResponse errorInfo :=
    { error := "Internal Server Error"
      code := errorInfo.code
      context := some errorInfo.context }

/-- ZodErrorHandler.handle maps each issue to field, message, received.
On a non-Zod input (never selected by the registry) the issue list is
empty. -/
def zodIssues : RawError → List ValidationIssue
  | .zodError issues _ _ => issues
  | _ => []

/-- ZodErrorHandler: instanceof ZodError, 400 VALIDATION_ERROR, context
carries the mapped validation list. -/
def zodErrorHandler : ErrorHandler where
  canHandle err :=
    match err with
    | .zodError _ _ _ => true
    | _ => false
  handle err :=
    { statusCode := 400
      code := "VALIDATION_ERROR"
      message := "Request validation failed"
      stack := rawStack err
      context :=
        [("validation", CtxVal.issues ((zodIssues err).map fun issue =>
          { field := String.intercalate "." issue.path
            message := issue.message
            received := issue.received }))] }
  buildResponse errorInfo :=
    { error := "Validation Error"
      code := errorInfo.code
      context := some errorInfo.context }

/-- AppErrorHandler: instanceof AppError, passes through the own
statusCode, code, message and context; on a non-AppError input (never
selected) it reads the possibly-absent attributes. -/
def appErrorHandler : ErrorHandler where
  canHandle err :=
    match err with
    | .appError _ => true
    | _ => false
  handle err :=
    match err with
    | .appError a =>
        { statusCode := a.statusCode
          code := a.code
          message := a.message
          stack := a.stack
          context := a.context }
    | e =>
        { statusCode := (ownStatusCode e).getD 500
          code := (ownCode e).getD ""
          message := rawMessage e
          stack := rawStack e
          context := [] }
  buildResponse errorInfo :=
    { error := "Application Error"
      code := errorInfo.code
      context := some errorInfo.context }

/-- DrizzleErrorHandler: instanceof DrizzleError or DrizzleQueryError.
DrizzleQueryError goes to 400 DATABASE_QUERY_ERROR with query, params and
cause message in context; everything else takes the generic DrizzleError
branch, 500 DATABASE_ERROR with the message in context. buildResponse
omits context from the envelope. -/
def drizzleErrorHandler : ErrorHandler where
  canHandle err :=
    match err with
    | .drizzleError _ _ => true
    | .drizzleQueryError _ _ _ _ _ => true
    | _ => false
  handle err :=
    match err with
    | .drizzleQueryError q p c _ s =>
        { statusCode := 400
          code := "DATABASE_QUERY_ERROR"
          message := "Database query failed"
          stack := s
          context :=
            [("query", CtxVal.str q),
             ("params", CtxVal.strList p),
             ("cause", CtxVal.optStr c)] }
    | e =>
        { statusCode := 500
          code := "DATABASE_ERROR"
          message := "Database operation failed"
          stack := rawStack e
          context := [("message", CtxVal.str (rawMessage e))] }
  buildResponse errorInfo :=
    { error := "Internal Server Error"
      code := errorInfo.code
      context := none }

/-- FastifyErrorHandler: matches any error carrying a statusCode or code
attribute; statusCode defaults to 500 via the nullish operator, code
defaults to INTERNAL_SERVER_ERROR via string truthiness. -/
def fastifyErrorHandler : ErrorHandler where
  canHandle err := (ownStatusCode err).isSome || (ownCode err).isSome
  handle err :=
    { statusCode := (ownStatusCode err).getD 500
      code := jsStrOr (ownCode err) "INTERNAL_SERVER_ERROR"
      message := rawMessage err
      stack := rawStack err
      context := [] }
  buildResponse errorInfo :=
    { error := "Server Error"
      code := errorInfo.code
      context := some errorInfo.context }

/-- The registration order in createErrorHandler: Zod, Drizzle, App,
Fastify, Generic. -/
def handlers : List ErrorHandler :=
  [zodErrorHandler, drizzleErrorHandler, appErrorHandler,
   fastifyErrorHandler, genericErrorHandler]

/-- ErrorHandlerRegistry.findHandler: first handler whose canHandle
accepts the error, falling back to the last registered handler. -/
def findHandler (err : RawError) : ErrorHandler :=
  (handlers.find? fun h => h.canHandle err).getD
    (handlers.getLastD genericErrorHandler)

/-- The normalized record the pipeline produces for a raw error. -/
def classify (err : RawError) : ErrorInfo :=
  (findHandler err).handle err

/-- The outward JSON envelope the pipeline produces for a raw error. -/
def responseOf (err : RawError) : ErrorResponse :=
  (findHandler err).buildResponse (classify err)

/-- Log levels from src/utils: type LogLevel. -/
inductive LogLevel where
  | fatal
  | error
  | warn
  | info
  | debug
  deriving Repr, DecidableEq

/-- getLogLevel: maps an HTTP status code to a log level. -/
def getLogLevel (statusCode : Int) : LogLevel :=
  if statusCode ≥ 500 then .fatal
  else if statusCode ≥ 400 then .error
  else if statusCode ≥ 300 then .warn
  else if statusCode ≥ 200 then .info
  else .info

/-- The request metadata record assembled at the top of the returned
error handler: requestId, url, method, userAgent, timestamp. -/
structure RequestMeta where
  id : String
  url : String
  method : String
  userAgent : Option String
  timestamp : String
  deriving Repr, DecidableEq

/-- The structured record handed to the logging sink:
request metadata plus the full normalized error. -/
structure LogData where
  request : RequestMeta
  error : ErrorInfo
  deriving Repr, DecidableEq

/-- The JSON body written by reply.send: requestId spread together with
the ErrorResponse fields. -/
structure SentBody where
  requestId : String
  error : String
  code : String
  context : Option ErrorContext
  deriving Repr, DecidableEq

/-- Everything observable from one run of the returned error handler:
the chosen log level, the structured log entry (absent when the logging
sink threw), the console fallback entry (present exactly when the sink
threw), and the HTTP status and body sent. -/
structure HandlerOutcome where
  logLevel : LogLevel
  structuredLog : Option LogData
  consoleLog : Option LogData
  sentStatus : Int
  sentBody : SentBody
  deriving Repr, DecidableEq

/-- The handler returned by createErrorHandler, as a pure function.
loggerFails models the logging sink throwing; the try/catch around the
structured log call then routes the same log data to console.error and
the response is still sent afterwards. -/
def createErrorHandlerRun (loggerFails : Bool) (err : RawError)
    (req : RequestMeta) : HandlerOutcome :=
  let handler := findHandler err
  let errorInfo := handler.handle err
  let response := handler.buildResponse errorInfo
  let logLevel := getLogLevel errorInfo.statusCode
  let logData : LogData := { request := req, error := errorInfo }
  { logLevel := logLevel
    structuredLog := if loggerFails then none else some logData
    consoleLog := if loggerFails then some logData else none
    sentStatus := errorInfo.statusCode
    sentBody :=
      { requestId := req.id
        error := response.error
        code := response.code
        context := response.context } }

/-- The log data assembled for a raw error and request metadata. -/
def logDataOf (err : RawError) (req : RequestMeta) : LogData :=
  { request := req, error := classify err }

/-- UserError.notFound: 404 USER_NOT_FOUND with userId in context. -/
def UserError.notFound (userId : Int) (context : ErrorContext) : AppError :=
  { message := "User not found"
    statusCode := 404
    code := "USER_NOT_FOUND"
    context := ("userId", CtxVal.num userId) :: context
    stack := none }

/-- UserError.alreadyExists: 409 USER_ALREADY_EXISTS with the duplicated
field in context. -/
def UserError.alreadyExists (field : String) (context : ErrorContext) : AppError :=
  { message := "User already exists"
    statusCode := 409
    code := "USER_ALREADY_EXISTS"
    context := ("field", CtxVal.str field) :: context
    stack := none }

/-- UserError.creationFailed: 500 USER_CREATION_FAILED. -/
def UserError.creationFailed (context : ErrorContext) : AppError :=
  { message := "Failed to create user"
    statusCode := 500
    code := "USER_CREATION_FAILED"
    context := context
    stack := none }

/-- UserError.authenticationFailed: 401 AUTHENTICATION_FAILED. -/
def UserError.authenticationFailed (context : ErrorContext) : AppError :=
  { message := "Authentication failed - invalid credentials"
    statusCode := 401
    code := "AUTHENTICATION_FAILED"
    context := context
    stack := none }

/-- PostError.notFound: 404 POST_NOT_FOUND with postId in context. -/
def PostError.notFound (postId : Int) (context : ErrorContext) : AppError :=
  { message := "Post not found"
    statusCode := 404
    code := "POST_NOT_FOUND"
    context := ("postId", CtxVal.num postId) :: context
    stack := none }

/-- PostError.alreadyPublished: 409 POST_ALREADY_PUBLISHED. -/
def PostError.alreadyPublished (postId : Int) (context : ErrorContext) : AppError :=
  { message := "Post is already published"
    statusCode := 409
    code := "POST_ALREADY_PUBLISHED"
    context := ("postId", CtxVal.num postId) :: context
    stack := none }

/-- PostError.notPublished: 409 POST_NOT_PUBLISHED. -/
def PostError.notPublished (postId : Int) (context : ErrorContext) : AppError :=
  { message := "Post is not published"
    statusCode := 409
    code := "POST_NOT_PUBLISHED"
    context := ("postId", CtxVal.num postId) :: context
    stack := none }

/-- DatabaseError.constraintViolation: 409 DATABASE_CONSTRAINT_VIOLATION
with operation and constraint in context. -/
def DatabaseError.constraintViolation (operation constraint : String)
    (context : ErrorContext) : AppError :=
  { message := "Database constraint violation"
    statusCode := 409
    code := "DATABASE_CONSTRAINT_VIOLATION"
    context := ("operation", CtxVal.str operation)
      :: ("constraint", CtxVal.str constraint) :: context
    stack := none }

/-- DatabaseError.connectionFailed: 503 DATABASE_CONNECTION_FAILED. -/
def DatabaseError.connectionFailed (context : ErrorContext) : AppError :=
  { message := "Database connection failed"
    statusCode := 503
    code := "DATABASE_CONNECTION_FAILED"
    context := context
    stack := none }

/-- DatabaseError.queryFailed: 500 DATABASE_QUERY_FAILED with the
operation in context. -/
def DatabaseError.queryFailed (operation : String)
    (context : ErrorContext) : AppError :=
  { message := "Database query failed"
    statusCode := 500
    code := "DATABASE_QUERY_FAILED"
    context := ("operation", CtxVal.str operation) :: context
    stack := none }

/-- genReqId: the x-request-id header when present (the nullish operator
keeps any present string, even the empty one), otherwise the freshly
generated random UUID. -/
def genReqId (xRequestIdHeader : Option String) (randomUUID : String) : String :=
  xRequestIdHeader.getD randomUUID

/-- The request-scoped store established by createRequestContextHook. -/
structure Store where
  requestId : Option String
  deriving Repr, DecidableEq

/-- The observable effect of createRequestContextHook: it sets the
x-request-id reply header to req.id and opens the context with a store
holding req.id. -/
structure HookEffect where
  replyHeader : String × String
  store : Store
  deriving Repr, DecidableEq

/-- createRequestContextHook from src/middleware. -/
def createRequestContextHook (req : RequestMeta) : HookEffect :=
  { replyHeader := ("x-request-id", req.id)
    store := { requestId := some req.id } }

/-- The own statusCode and code attributes of a raw error, when present,
are themselves well formed: any own statusCode lies in [100,599] and an
AppError code is non-empty. -/
def ownAttrsOk : RawError → Prop
  | .appError a => (100 ≤ a.statusCode ∧ a.statusCode ≤ 599) ∧ a.code ≠ ""
  | .plainError (some sc) _ _ _ => 100 ≤ sc ∧ sc ≤ 599
  | _ => True

/-- jsStrOr never returns the empty string when its default is
non-empty. -/
theorem jsStrOr_ne_empty (s : Option String) (d : String) (hd : d ≠ "") :
    jsStrOr s d ≠ "" := by
  cases s with
  | none => simpa [jsStrOr] using hd
  | some v =>
      by_cases hv : v = "" <;> simp [jsStrOr, hv, hd]

/-- Claim C1: every AppError also satisfies the attribute predicate of
FastifyErrorHandler, yet classification selects the domain-error handler
registered before it, so the normalized record carries the AppError own
statusCode, code and context and the envelope is the Application Error
one, never the Server Error one. -/
theorem C1_domain_tier_beats_attribute_tier (a : AppError) :
    fastifyErrorHandler.canHandle (RawError.appError a) = true ∧
    findHandler (RawError.appError a) = appErrorHandler ∧
    classify (RawError.appError a) =
      { statusCode := a.statusCode, code := a.code, message := a.message,
        stack := a.stack, context := a.context } ∧
    (responseOf (RawError.appError a)).error = "Application Error" ∧
    (responseOf (RawError.appError a)).error ≠ "Server Error" := by
  exact ⟨rfl, rfl, rfl, rfl,
    (by decide : ("Application Error" : String) ≠ "Server Error")⟩

/-- Claim C2 counterexample: for the concrete domain error
UserError.notFound 42, the response body does contain the diagnostic
context, userId included — AppErrorHandler.buildResponse copies context
into the envelope. -/
theorem C2_counterexample_context_in_body :
    (responseOf (RawError.appError (UserError.notFound 42 []))).context =
      some [("userId", CtxVal.num 42)] ∧
    ("userId", CtxVal.num 42) ∈
      ((responseOf (RawError.appError (UserError.notFound 42 []))).context.getD []) := by
  exact ⟨rfl, by decide⟩

/-- Claim C2 amended: for every raw error classified by the domain-error
tier, the response body contains the full diagnostic context verbatim,
and the same context also appears in the server-side log record. -/
theorem C2_amended_context_sent_and_logged (a : AppError) (req : RequestMeta) :
    (responseOf (RawError.appError a)).context = some a.context ∧
    (logDataOf (RawError.appError a) req).error.context = a.context ∧
    (createErrorHandlerRun false (RawError.appError a) req).structuredLog =
      some (logDataOf (RawError.appError a) req) := by
  exact ⟨rfl, rfl, rfl⟩

/-- Claim C3 counterexample: a plain error carrying the stray attribute
statusCode = 700 is classified by the attribute tier, which passes the
out-of-range status through verbatim. -/
theorem C3_counterexample_status_passthrough :
    (classify (RawError.plainError (some 700) none "boom" none)).statusCode = 700 ∧
    ¬ (classify (RawError.plainError (some 700) none "boom" none)).statusCode ≤ 599 := by
  exact ⟨rfl, by decide⟩

/-- Claim C3 amended: classification is a total function, and whenever
the own statusCode and code attributes of the raw error (if any) are
themselves in range and non-empty, the normalized record has statusCode
in [100,599] and a non-empty code. -/
theorem C3_amended_classification_safe (e : RawError) (h : ownAttrsOk e) :
    100 ≤ (classify e).statusCode ∧ (classify e).statusCode ≤ 599 ∧
    (classify e).code ≠ "" := by
  cases e with
  | zodError issues m s =>
      exact ⟨(by decide : (100 : Int) ≤ 400), (by decide : (400 : Int) ≤ 599),
        (by decide : ("VALIDATION_ERROR" : String) ≠ "")⟩
  | drizzleQueryError q p c m s =>
      exact ⟨(by decide : (100 : Int) ≤ 400), (by decide : (400 : Int) ≤ 599),
        (by decide : ("DATABASE_QUERY_ERROR" : String) ≠ "")⟩
  | drizzleError m s =>
      exact ⟨(by decide : (100 : Int) ≤ 500), (by decide : (500 : Int) ≤ 599),
        (by decide : ("DATABASE_ERROR" : String) ≠ "")⟩
  | appError a =>
      obtain ⟨⟨h1, h2⟩, h3⟩ := h
      exact ⟨h1, h2, h3⟩
  | plainError sc c m s =>
      cases sc with
      | some v =>
          obtain ⟨h1, h2⟩ := h
          exact ⟨h1, h2, jsStrOr_ne_empty c "INTERNAL_SERVER_ERROR" (by decide)⟩
      | none =>
          cases c with
          | some cv =>
              exact ⟨(by decide : (100 : Int) ≤ 500), (by decide : (500 : Int) ≤ 599),
                jsStrOr_ne_empty (some cv) "INTERNAL_SERVER_ERROR" (by decide)⟩
          | none =>
              exact ⟨(by decide : (100 : Int) ≤ 500), (by decide : (500 : Int) ≤ 599),
                (by decide : ("INTERNAL_SERVER_ERROR" : String) ≠ "")⟩

/-- Witness for the amended claim C3 at a concrete plain error carrying
only a code attribute. -/
theorem C3_amended_classification_safe_witness :
    ownAttrsOk (RawError.plainError none (some "FST_ERR_NOT_FOUND") "boom" none) ∧
    (100 ≤ (classify (RawError.plainError none (some "FST_ERR_NOT_FOUND") "boom" none)).statusCode ∧
     (classify (RawError.plainError none (some "FST_ERR_NOT_FOUND") "boom" none)).statusCode ≤ 599 ∧
     (classify (RawError.plainError none (some "FST_ERR_NOT_FOUND") "boom" none)).code ≠ "") :=
  ⟨trivial, C3_amended_classification_safe _ trivial⟩

/-- Claim C4: getLogLevel maps statuses at least 500 to fatal, [400,500)
to error, [300,400) to warn, and everything below 300 (both [200,300)
and statuses below 200) to info; the boundary statuses 200, 300, 400 and
500 land in the higher bucket, and being a function it yields exactly one
level per input. -/
theorem C4_log_level_buckets (n : Int) :
    (500 ≤ n → getLogLevel n = LogLevel.fatal) ∧
    (400 ≤ n ∧ n < 500 → getLogLevel n = LogLevel.error) ∧
    (300 ≤ n ∧ n < 400 → getLogLevel n = LogLevel.warn) ∧
    (n < 300 → getLogLevel n = LogLevel.info) ∧
    getLogLevel 200 = LogLevel.info ∧ getLogLevel 300 = LogLevel.warn ∧
    getLogLevel 400 = LogLevel.error ∧ getLogLevel 500 = LogLevel.fatal := by
  unfold getLogLevel
  refine ⟨?_, ?_, ?_, ?_, by decide, by decide, by decide, by decide⟩ <;>
    intro h <;> split_ifs <;> first | rfl | (exfalso; omega)

/-- Witness for claim C4 at the boundary and near-boundary statuses. -/
theorem C4_log_level_buckets_witness :
    getLogLevel 500 = LogLevel.fatal ∧ getLogLevel 499 = LogLevel.error ∧
    getLogLevel 399 = LogLevel.warn ∧ getLogLevel 299 = LogLevel.info ∧
    getLogLevel 199 = LogLevel.info :=
  ⟨(C4_log_level_buckets 500).1 (by decide),
   (C4_log_level_buckets 499).2.1 (by decide),
   (C4_log_level_buckets 399).2.2.1 (by decide),
   (C4_log_level_buckets 299).2.2.2.1 (by decide),
   (C4_log_level_buckets 199).2.2.2.1 (by decide)⟩

/-- Claim C5: within the Drizzle tier (both variants) and within the
generic fallback tier, two raw errors differing only in message and
stack produce identical envelopes; those envelopes carry no context at
all for the Drizzle tier and an always-empty context for the fallback
tier, so neither the raw message nor the stack reaches the client. -/
theorem C5_persistence_and_fallback_bodies_fixed
    (q : String) (p : List String) (c : Option String)
    (m1 m2 : String) (s1 s2 : Option String) :
    responseOf (RawError.drizzleQueryError q p c m1 s1) =
      responseOf (RawError.drizzleQueryError q p c m2 s2) ∧
    responseOf (RawError.drizzleError m1 s1) =
      responseOf (RawError.drizzleError m2 s2) ∧
    responseOf (RawError.plainError none none m1 s1) =
      responseOf (RawError.plainError none none m2 s2) ∧
    (responseOf (RawError.drizzleQueryError q p c m1 s1)).context = none ∧
    (responseOf (RawError.drizzleError m1 s1)).context = none ∧
    responseOf (RawError.plainError none none m1 s1) =
      { error := "Internal Server Error", code := "INTERNAL_SERVER_ERROR",
        context := some [] } := by
  exact ⟨rfl, rfl, rfl, rfl, rfl, rfl⟩

/-- Claim C6: each domain-error factory fixes the status and code pair
stated in the spec, with userId kept in the notFound context and the
duplicated field kept in the alreadyExists context. -/
theorem C6_factory_status_code_pairs (userId postId : Int)
    (field op constraint : String) (ctx : ErrorContext) :
    (UserError.notFound userId ctx).statusCode = 404 ∧
    (UserError.notFound userId ctx).code = "USER_NOT_FOUND" ∧
    ("userId", CtxVal.num userId) ∈ (UserError.notFound userId ctx).context ∧
    (UserError.alreadyExists field ctx).statusCode = 409 ∧
    (UserError.alreadyExists field ctx).code = "USER_ALREADY_EXISTS" ∧
    ("field", CtxVal.str field) ∈ (UserError.alreadyExists field ctx).context ∧
    (UserError.creationFailed ctx).statusCode = 500 ∧
    (UserError.creationFailed ctx).code = "USER_CREATION_FAILED" ∧
    (UserError.authenticationFailed ctx).statusCode = 401 ∧
    (UserError.authenticationFailed ctx).code = "AUTHENTICATION_FAILED" ∧
    (PostError.notFound postId ctx).statusCode = 404 ∧
    (PostError.notFound postId ctx).code = "POST_NOT_FOUND" ∧
    (PostError.alreadyPublished postId ctx).statusCode = 409 ∧
    (PostError.alreadyPublished postId ctx).code = "POST_ALREADY_PUBLISHED" ∧
    (PostError.notPublished postId ctx).statusCode = 409 ∧
    (PostError.notPublished postId ctx).code = "POST_NOT_PUBLISHED" ∧
    (DatabaseError.constraintViolation op constraint ctx).statusCode = 409 ∧
    (DatabaseError.constraintViolation op constraint ctx).code =
      "DATABASE_CONSTRAINT_VIOLATION" ∧
    (DatabaseError.connectionFailed ctx).statusCode = 503 ∧
    (DatabaseError.connectionFailed ctx).code = "DATABASE_CONNECTION_FAILED" ∧
    (DatabaseError.queryFailed op ctx).statusCode = 500 ∧
    (DatabaseError.queryFailed op ctx).code = "DATABASE_QUERY_FAILED" := by
  refine ⟨rfl, rfl, List.mem_cons_self _ _, rfl, rfl, List.mem_cons_self _ _,
    rfl, rfl, rfl, rfl, rfl, rfl, rfl, rfl, rfl, rfl, rfl, rfl, rfl, rfl,
    rfl, rfl⟩

/-- Claim C7: when the structured logging call throws, the handler
catches it, writes the same log data to the console fallback, and still
sends the response with the classified status and body — identical to
the response sent when logging succeeds. -/
theorem C7_logger_failure_not_propagated (e : RawError) (req : RequestMeta) :
    (createErrorHandlerRun true e req).consoleLog = some (logDataOf e req) ∧
    (createErrorHandlerRun true e req).structuredLog = none ∧
    (createErrorHandlerRun true e req).sentStatus = (classify e).statusCode ∧
    (createErrorHandlerRun true e req).sentBody =
      { requestId := req.id, error := (responseOf e).error,
        code := (responseOf e).code, context := (responseOf e).context } ∧
    (createErrorHandlerRun true e req).sentStatus =
      (createErrorHandlerRun false e req).sentStatus ∧
    (createErrorHandlerRun true e req).sentBody =
      (createErrorHandlerRun false e req).sentBody := by
  exact ⟨rfl, rfl, rfl, rfl, rfl, rfl⟩

/-- Claim C8: the error string of every envelope is one of the four
fixed handler strings, it is a function of the matched handler alone,
and the envelope is invariant under changing the normalized message —
so the message field is never echoed to the client. -/
theorem C8_envelope_ignores_message (e : RawError) (m : String) :
    ((responseOf e).error = "Validation Error" ∨
     (responseOf e).error = "Application Error" ∨
     (responseOf e).error = "Internal Server Error" ∨
     (responseOf e).error = "Server Error") ∧
    (∀ info : ErrorInfo,
      ((findHandler e).buildResponse info).error = (responseOf e).error) ∧
    (findHandler e).buildResponse { classify e with message := m } =
      responseOf e := by
  cases e with
  | zodError issues msg s => exact ⟨Or.inl rfl, fun info => rfl, rfl⟩
  | drizzleQueryError q p c msg s =>
      exact ⟨Or.inr (Or.inr (Or.inl rfl)), fun info => rfl, rfl⟩
  | drizzleError msg s =>
      exact ⟨Or.inr (Or.inr (Or.inl rfl)), fun info => rfl, rfl⟩
  | appError a => exact ⟨Or.inr (Or.inl rfl), fun info => rfl, rfl⟩
  | plainError sc c msg s =>
      cases sc with
      | some v => exact ⟨Or.inr (Or.inr (Or.inr rfl)), fun info => rfl, rfl⟩
      | none =>
          cases c with
          | some cv =>
              exact ⟨Or.inr (Or.inr (Or.inr rfl)), fun info => rfl, rfl⟩
          | none =>
              exact ⟨Or.inr (Or.inr (Or.inl rfl)), fun info => rfl, rfl⟩

/-- Claim C10: the request id is exactly the x-request-id header value
whenever the header is present and the generated UUID only when it is
absent; the context hook stores that id, and the body sent by the error
handler echoes it as requestId for every raw error. -/
theorem C10_request_id_chosen_by_client (h uuid : String) (hdr : Option String)
    (e : RawError) (lf : Bool) (url mth ts : String) (ua : Option String) :
    genReqId (some h) uuid = h ∧
    genReqId none uuid = uuid ∧
    (createRequestContextHook
      { id := genReqId hdr uuid, url := url, method := mth,
        userAgent := ua, timestamp := ts }).store.requestId =
      some (genReqId hdr uuid) ∧
    (createErrorHandlerRun lf e
      { id := genReqId hdr uuid, url := url, method := mth,
        userAgent := ua, timestamp := ts }).sentBody.requestId =
      genReqId hdr uuid := by
  exact ⟨rfl, rfl, rfl, rfl⟩

end FastifyApi
